import Mathlib

namespace Blazee

/-!
# Verification of the blazee-python deployment SDK

Shallow embedding, in Lean 4, of the parts of the `blazee` Python package that
the specification's claims are about:

* `blazee/client.py` — the `Client` transport (`_api_call`), the deployment
  orchestrator (`_create_model`) and its poll loop (`_wait_for_depoyment`);
* `blazee/model.py` — the `BlazeeModel` / `ModelVersion` handles and the
  sklearn serialization used by `update`;
* `blazee/utils.py` — zip archive building (`generate_zip`) and the recursive
  dependency resolver (`get_requirements` / `get_installed_versions`);
* `blazee/sklearn_utils.py`, `blazee/keras_utils.py`, `blazee/xgboost_utils.py`,
  `blazee/lightgbm_utils.py` — the framework adapters.

Python exceptions are modelled by an explicit `PyExc` type and `Except`;
HTTP traffic by explicit request values accumulated in traces; the local file
system and the installed-package database by explicit finite environments.
Machine-specific behaviour (actual DEFLATE compression, actual pickling) is
kept abstract at the byte level: the payload handed to the relevant library
call is carried through verbatim as a `String`.
-/
/-- Python exceptions raised by the code under verification.  Each constructor
corresponds to an exception class used by the source (all three transport
errors are `requests.exceptions.HTTPError` in the source and are told apart by
their message, exactly as in the code). -/
inductive PyExc where
  | httpError (msg : String)
  | jsonDecodeError
  | attributeError (msg : String)
  | assertionError (msg : String)
  | typeError (msg : String)
  | valueError (msg : String)
  | runtimeError (msg : String)
  | timeoutError (msg : String)
  | keyError (msg : String)
  | notFittedError (msg : String)
  | notImplementedError (msg : String)
  | distributionNotFound (pkg : String)
  | oserror (msg : String)
deriving Repr, DecidableEq

/-! ## Transport: `Client._api_call` (client.py lines 132-160) -/
/-- The structured error information the server may put under the `error` key
of a JSON body: `body['error']['code']`, `body['error']['message']`,
`body['error']['details']`. -/
structure ErrorInfo where
  code : String
  message : String
  details : List String
deriving Repr, DecidableEq

/-- A parsed JSON response body as `Client._api_call` inspects it: the optional
`error` field, plus the rest of the parsed document kept opaque (`payload`), so
that returning the body verbatim is expressible. -/
structure JsonBody where
  error : Option ErrorInfo
  payload : String
deriving Repr, DecidableEq

/-- An HTTP response as observed by `Client._api_call`: the status code and
the result of `resp.json()` — `none` when the body is not valid JSON (in
Python that call raises a JSON decode error). -/
structure HttpResponse where
  status_code : Nat
  json : Option JsonBody
deriving Repr, DecidableEq

/-- Message of the `HTTPError` raised for statuses ≥ 500 (client.py line 145). -/
def serverErrorMsg (status : Nat) : String :=
  Nat.repr status ++ " Internal Server Error: Please contact us at support@blazee.io"

/-- Message of the `HTTPError` raised for status 403 (client.py line 148). -/
def authErrorMsg : String :=
  "Invalid API Key. Get your API key on https://blazee.io"

/-- Message of the `HTTPError` raised for a body with an `error` field
(client.py lines 154-156): status and machine code and human message, then
every detail string on its own line. -/
def apiErrorMsg (status : Nat) (e : ErrorInfo) : String :=
  e.details.foldl (fun acc d => acc ++ "\n" ++ d)
    (Nat.repr status ++ " " ++ e.code ++ ": " ++ e.message)

/-- `Client._api_call` response classification (client.py lines 144-160).
The request-building part (headers, JSON encoding) has no bearing on the
claims; the function is modelled from the response it receives onward. -/
def api_call (resp : HttpResponse) : Except PyExc JsonBody :=
  if 500 ≤ resp.status_code then
    .error (.httpError (serverErrorMsg resp.status_code))
  else if resp.status_code = 403 then
    .error (.httpError authErrorMsg)
  else
    match resp.json with
    | none => .error .jsonDecodeError
    | some body =>
      match body.error with
      | some e => .error (.httpError (apiErrorMsg resp.status_code e))
      | none => .ok body

/-! ## Archive builder: `generate_zip` (utils.py lines 35-44) -/
/-- One entry of the in-memory zip archive: the `ZipInfo` file name, the
`external_attr` permission bits set on it, and the bytes handed to
`writestr`. -/
structure ZipEntry where
  filename : String
  external_attr : Nat
  content : String
deriving Repr, DecidableEq

/-- `zipfile.ZipFile.writestr`, modelled at the library's contract level: a
writable archive is the sequence of entries written so far and `writestr`
appends one entry recording the `ZipInfo` (name, attributes) and the payload.
The per-entry DEFLATE encoding applied inside the Python library is an
external lossless codec, so each entry carries its payload verbatim. -/
def writestr (zf : List ZipEntry) (filename : String) (attr : Nat)
    (content : String) : List ZipEntry :=
  zf ++ [⟨filename, attr, content⟩]

/-- `generate_zip` (utils.py lines 35-44): open an in-memory archive, then for
every `(file_name, content)` pair write one entry whose `external_attr` is
`0o644 << 16` ("give read access"). -/
def generate_zip (files : List (String × String)) : List ZipEntry :=
  files.foldl (fun zf fc => writestr zf fc.1 (0o644 <<< 16) fc.2) []

/-- Extraction of an archive: read every stored entry, in order, as a
`(name, bytes)` pair (Python: iterate `infolist()` and `read` each entry). -/
def unarchive (zf : List ZipEntry) : List (String × String) :=
  zf.map (fun e => (e.filename, e.content))

/-! ## Dependency resolver: `get_requirements` / `get_installed_versions`
(utils.py lines 47-66) -/
/-- One installed distribution as `pkg_resources` reports it: its version and
the names of its declared requirements (`dist.requires()`). -/
structure Dist where
  version : String
  requires : List String
deriving Repr, DecidableEq

/-- The local installation database.  `pkg_resources.get_distribution`
succeeds exactly on the names listed here. -/
abbrev PkgEnv := List (String × Dist)

/-- `pkg_resources.get_distribution(pkg)`: `some` of the installed
distribution, `none` when the lookup raises `DistributionNotFound`. -/
def get_distribution (env : PkgEnv) (pkg : String) : Option Dist :=
  (List.find? (fun e => e.1 == pkg) env).map (fun e => e.2)

/-- Python `{**a, **b}` dict merge on string-keyed dicts: the mapping agrees
with `b` where `b` has the key and with `a` elsewhere. -/
def dictMerge (a b : List (String × String)) : List (String × String) :=
  a.filter (fun kv => (List.lookup kv.1 b).isNone) ++ b

/-- The `for require in dist.requires()` loop of `get_installed_versions`
(utils.py lines 62-65), parameterized by the recursive call `rec` it makes:
fold over the declared requirements, merging each call's result into
`requirements` and threading the shared visited list through. -/
def givFoldStep
    (rec : List String → String →
      Except PyExc (List (String × String) × List String)) :
    List String → List String → List (String × String) →
    Except PyExc (List (String × String) × List String)
  | skip, [], requirements => .ok (requirements, skip)
  | skip, dep :: rest, requirements =>
    match rec skip dep with
    | .error e => .error e
    | .ok (dep_reqs, skip2) =>
      givFoldStep rec skip2 rest (dictMerge requirements dep_reqs)

/-- `get_installed_versions(package, skip=skip)` (utils.py lines 55-66),
state-passing form.  The Python `skip` list is mutated in place and shared by
reference across the sibling recursive calls of the loop, so it is threaded
through explicitly and returned.  `fuel` bounds the recursion depth; running
out of it is modelled as Python's `RecursionError`, and the theorems below
show the visited list keeps the depth below `env.length + 1`, so with that
fuel the fallback is never reached — the traversal terminates, cycles
included.  (Defined by primitive recursion on the fuel so that it evaluates
definitionally.) -/
def givFuel (env : PkgEnv) (fuel : Nat) :
    List String → String →
    Except PyExc (List (String × String) × List String) :=
  Nat.rec (motive := fun _ => List String → String →
      Except PyExc (List (String × String) × List String))
    (fun _ _ => .error (.runtimeError "maximum recursion depth exceeded"))
    (fun _fuel' rec skip package =>
      if package ∈ skip then .ok ([], skip)
      else
        match get_distribution env package with
        | none => .error (.distributionNotFound package)
        | some dist =>
          givFoldStep rec (skip ++ [package]) dist.requires
            [(package, dist.version)])
    fuel

/-- The requirements loop of `get_installed_versions` at a given fuel. -/
def givFold (env : PkgEnv) (fuel : Nat) (skip : List String)
    (deps : List String) (requirements : List (String × String)) :
    Except PyExc (List (String × String) × List String) :=
  givFoldStep (givFuel env fuel) skip deps requirements

/-- `get_installed_versions(package)` with the default `skip=None` (a fresh
empty visited list), at the sufficient fuel `env.length + 1`. -/
def get_installed_versions (env : PkgEnv) (package : String) :
    Except PyExc (List (String × String)) :=
  match givFuel env (env.length + 1) [] package with
  | .error e => .error e
  | .ok (m, _) => .ok m

/-- The `for pkg in packages` loop of `get_requirements` (utils.py 47-52). -/
def getRequirementsLoop (env : PkgEnv) (packages : List String)
    (deps : List (String × String)) : Except PyExc (List (String × String)) :=
  match packages with
  | [] => .ok deps
  | pkg :: rest =>
    match get_installed_versions env pkg with
    | .error e => .error e
    | .ok preqs => getRequirementsLoop env rest (dictMerge deps preqs)

/-- `get_requirements(packages)` (utils.py lines 47-52). -/
def get_requirements (env : PkgEnv) (packages : List String) :
    Except PyExc (List (String × String)) :=
  getRequirementsLoop env packages []

/-- Dependency reachability from `p` while avoiding the visited list `S`:
there is a chain of declared-dependency edges from `p` to `x` none of whose
nodes (including `p` and `x`) lies in `S`. -/
inductive ReachAvoid (env : PkgEnv) (S : List String) : String → String → Prop
  | refl (p : String) : p ∉ S → ReachAvoid env S p p
  | step {p q x : String} {d : Dist} : p ∉ S → get_distribution env p = some d →
      q ∈ d.requires → ReachAvoid env S q x → ReachAvoid env S p x

/-- Plain reachability (the transitive-reflexive dependency closure) is
reachability avoiding nothing. -/
def Reaches (env : PkgEnv) (p x : String) : Prop :=
  ReachAvoid env [] p x

/-- The environment is dependency-closed: every requirement named by an
installed distribution is itself installed.  (Bounded over the finite
database, hence decidable.) -/
def DepClosed (env : PkgEnv) : Prop :=
  ∀ e ∈ env, ∀ q ∈ e.2.requires, (get_distribution env q).isSome

instance (env : PkgEnv) : Decidable (DepClosed env) := by
  unfold DepClosed
  exact List.decidableBAll _ env

/-- Number of installed distributions not yet on the visited list: the
termination measure of the traversal. -/
def unvisited (env : PkgEnv) (skip : List String) : Nat :=
  ((env.map Prod.fst).toFinset \ skip.toFinset).card

/-- Correctness statement for one `get_installed_versions(package, skip)`
call: the call succeeds, the returned visited list extends the input one by
exactly the packages reachable from `package` while avoiding the input list,
the returned dict binds exactly the newly visited names, and every binding
carries the installed version of its key. -/
def GivSpec (env : PkgEnv) (skip : List String) (package : String)
    (out : Except PyExc (List (String × String) × List String)) : Prop :=
  ∃ m skip', out = .ok (m, skip')
    ∧ (∀ x, x ∈ skip' ↔ (x ∈ skip ∨ ReachAvoid env skip package x))
    ∧ (∀ k, (List.lookup k m).isSome ↔ (k ∈ skip' ∧ k ∉ skip))
    ∧ (∀ k v, List.lookup k m = some v →
        ∃ d, get_distribution env k = some d ∧ d.version = v)

/-- Correctness statement for the requirements loop of
`get_installed_versions`, folded over `deps` with accumulator `acc`. -/
def FoldSpec (env : PkgEnv) (skip : List String) (deps : List String)
    (acc : List (String × String))
    (out : Except PyExc (List (String × String) × List String)) : Prop :=
  ∃ m skip', out = .ok (m, skip')
    ∧ (∀ x, x ∈ skip' ↔ (x ∈ skip ∨ ∃ dep ∈ deps, ReachAvoid env skip dep x))
    ∧ (∀ k, (List.lookup k m).isSome ↔
        ((List.lookup k acc).isSome ∨ (k ∈ skip' ∧ k ∉ skip)))
    ∧ (∀ k v, List.lookup k m = some v →
        (List.lookup k acc = some v
          ∨ ∃ d, get_distribution env k = some d ∧ d.version = v))

/-- A concrete installation database with a dependency cycle (`liba` and
`libb` require each other) and a diamond through `base`. -/
def envCyc : PkgEnv :=
  [("liba", ⟨"1.0", ["libb", "base"]⟩),
   ("libb", ⟨"2.0", ["liba"]⟩),
   ("base", ⟨"0.3", []⟩),
   ("solo", ⟨"9.9", []⟩)]

/-! ## sklearn adapter: `serialize_sklearn` (sklearn_utils.py lines 79-93)
and its helpers, plus the import-scanning dependency heuristics of utils.py -/
/-- Type information and `isinstance` answers for one estimator object, as
probed by `_get_estimator_dependencies` (sklearn_utils.py lines 27-50):
`typeName` is the `repr` of `type(obj)` (used only in error messages),
`module` is `type(obj).__module__`. -/
structure PyEst where
  typeName : String
  module : String
  isKerasBaseWrapper : Bool
  isXGBClassifier : Bool
  isLGBMModel : Bool
deriving Repr, DecidableEq

/-- Which of the ordered `isinstance` branches of `_get_model_metadata`
(sklearn_utils.py lines 60-68) the model object falls into: an
`sklearn.pipeline.Pipeline` with its named steps, a `BaseSearchCV` wrapping
one estimator, or neither. -/
inductive SkKind where
  | pipeline (steps : List (String × PyEst))
  | searchCV (estimator : PyEst)
  | plain
deriving Repr, DecidableEq

/-- A model object as the sklearn serialization paths observe it: its own
estimator view, its `isinstance(-, BaseEstimator)` answer, its pipeline /
search-CV shape, the outcome of the trivial-input probe `model.predict([0])`
(`none` = the call returns, `some e` = it raises `e`), and the bytes
`pickle.dumps(model)` produces. -/
structure SkModel where
  est : PyEst
  isBaseEstimator : Bool
  kind : SkKind
  probe : Option PyExc
  pickled : String
deriving Repr, DecidableEq

/-- `isinstance(e, sklearn.exceptions.NotFittedError)`. -/
def isNotFittedError : PyExc → Bool
  | .notFittedError _ => true
  | _ => false

/-- The fitted-check of `serialize_sklearn` (sklearn_utils.py lines 80-86)
and `_serialize_model` (model.py lines 63-69): run `model.predict([0])`
inside `try/except Exception as e`; if the caught exception is a
`NotFittedError`, raise `AttributeError`; otherwise the handler falls
through and the exception is swallowed. -/
def fitProbe (probe : Option PyExc) : Except PyExc Unit :=
  match probe with
  | none => .ok ()
  | some e =>
    if isNotFittedError e then
      .error (.attributeError "This model hasn't been trained yet")
    else .ok ()

/-- `keras_utils.get_keras_deps()` (keras_utils.py lines 36-49): keras plus
the configured backend, or `NotImplementedError` for an unknown backend. -/
def get_keras_deps (backend : String) : Except PyExc (List String) :=
  if backend = "tensorflow" then .ok ["keras", "tensorflow"]
  else if backend = "theano" then .ok ["keras", "theano"]
  else if backend = "cntk" then .ok ["keras", "cntk"]
  else .error (.notImplementedError
    "At the moment we only support tensorflow backend for Keras")

/-- `_get_estimator_dependencies` (sklearn_utils.py lines 27-50): the extra
package names an estimator pulls in, by ordered `isinstance` probes. -/
def get_estimator_dependencies (backend : String) (e : PyEst) :
    Except PyExc (List String) :=
  if e.isKerasBaseWrapper then get_keras_deps backend
  else if e.isXGBClassifier then .ok ["xgboost"]
  else if e.isLGBMModel then .ok ["lightgbm"]
  else .ok []

/-- The local source files named by `include_files`: their `readlines()`
content and their raw bytes, as an explicit oracle. -/
structure Fs where
  lines : String → List String
  bytes : String → String

/-- A regex `.` does not match a newline, so a greedy trailing group stops
before the `readlines`-kept line terminator. -/
def stripNl (s : String) : String :=
  if s.endsWith "\n" then s.dropRight 1 else s

/-- `re.match(r'import (.+)', l)` (utils.py line 77): the line starts with
`import ` followed by at least one character; the group is the rest of the
line. -/
def matchImport (l : String) : Option String :=
  if l.startsWith "import " then
    let rest := stripNl (l.drop 7)
    if rest.length = 0 then none else some rest
  else none

/-- `re.match(r'from (.+) import (.+)', l)` (utils.py line 78): the line
starts with `from `, then a greedy first group, the literal ` import `, and a
nonempty second group.  Greediness picks the last ` import ` separator that
leaves both groups nonempty. -/
def matchFrom (l : String) : Option (String × String) :=
  if l.startsWith "from " then
    let body := stripNl (l.drop 5)
    let parts := body.splitOn " import "
    if h : parts.length < 2 then none
    else
      let lastPart := parts.getLast (by
        intro hnil
        rw [hnil] at h
        simp at h)
      if lastPart.isEmpty then
        if parts.length < 3 then none
        else
          let g1 := String.intercalate " import " (parts.dropLast.dropLast)
          let g2 := String.intercalate " import "
            [parts.dropLast.getLastD "", lastPart]
          if g1.isEmpty then none else some (g1, g2)
      else
        let g1 := String.intercalate " import " parts.dropLast
        if g1.isEmpty then none else some (g1, lastPart)
  else none

/-- `parse_import` (utils.py lines 97-109): relative imports give `None`; the
head of the dotted path is looked up among installed distributions; a missing
distribution is silently treated as unresolved (`None`). -/
def parse_import (env : PkgEnv) (imp : String) : Option String :=
  if imp.startsWith "." then none
  else
    let pkg_name := (imp.splitOn ".").headD ""
    match get_distribution env pkg_name with
    | some _ => some pkg_name
    | none => none

/-- Insertion into the Python `set` of requirement names, modelled as a
duplicate-free list in insertion order. -/
def setAdd (s : List String) (x : String) : List String :=
  if x ∈ s then s else s ++ [x]

/-- `get_file_dependencies` (utils.py lines 76-94): scan each line of the
file for an `import`/`from` statement and collect the resolvable package
names. -/
def get_file_dependencies (env : PkgEnv) (fs : Fs) (file_name : String) :
    List String :=
  (fs.lines file_name).foldl
    (fun reqs l =>
      match matchImport l with
      | some imp =>
        match parse_import env imp with
        | some req => setAdd reqs req
        | none => reqs
      | none =>
        match matchFrom l with
        | some (imp, _) =>
          match parse_import env imp with
          | some req => setAdd reqs req
          | none => reqs
        | none => reqs)
    []

/-- `get_files_dependencies` (utils.py lines 69-73): union of the per-file
dependency sets, returned as a list. -/
def get_files_dependencies (env : PkgEnv) (fs : Fs)
    (file_names : List String) : List String :=
  file_names.foldl
    (fun deps f => (get_file_dependencies env fs f).foldl setAdd deps) []

/-- Python truthiness of the `include_files` argument: `None` and the empty
list are falsy. -/
def truthyFiles : Option (List String) → Bool
  | none => false
  | some l => !l.isEmpty

/-- `add_file_deps` (utils.py lines 119-124): when `include_files` is truthy,
append each included file under the `deps/` prefix with its on-disk bytes. -/
def add_file_deps (fs : Fs) (files : List (String × String))
    (include_files : Option (List String)) : List (String × String) :=
  match include_files with
  | none => files
  | some l =>
    if l.isEmpty then files
    else files ++ l.map (fun f => ("deps/" ++ f, fs.bytes f))

/-- The metadata record `{'lib_versions': ..., 'include_files': ...}`. -/
structure SkMeta where
  lib_versions : List (String × String)
  include_files : Option (List String)
deriving Repr, DecidableEq

/-- `_get_model_metadata` (sklearn_utils.py lines 53-76): collect the
dependency names (scikit-learn, per-estimator extras by the ordered
`isinstance` dispatch, plus the import scan of any included files) and
resolve them to installed versions. -/
def sklearn_get_model_metadata (env : PkgEnv) (backend : String) (fs : Fs)
    (model : SkModel) (include_files : Option (List String)) :
    Except PyExc SkMeta :=
  let base := ["scikit-learn"]
  let depsE : Except PyExc (List String) :=
    match model.kind with
    | .pipeline steps =>
      steps.foldlM (fun acc st =>
        match get_estimator_dependencies backend st.2 with
        | .error e => .error e
        | .ok ds => .ok (acc ++ ds)) base
    | .searchCV inner =>
      match get_estimator_dependencies backend inner with
      | .error e => .error e
      | .ok ds => .ok (base ++ ds)
    | .plain =>
      if model.isBaseEstimator then
        match get_estimator_dependencies backend model.est with
        | .error e => .error e
        | .ok ds => .ok (base ++ ds)
      else
        .error (.valueError
          ("Model of type " ++ model.est.typeName ++ " not supported"))
  match depsE with
  | .error e => .error e
  | .ok deps =>
    let deps2 :=
      if truthyFiles include_files then
        deps ++ get_files_dependencies env fs
          (include_files.getD [])
      else deps
    match get_requirements env deps2 with
    | .error e => .error e
    | .ok libv => .ok ⟨libv, include_files⟩

/-- The `SerializedModel` named tuple of utils.py line 11. -/
structure SerializedModel where
  type : String
  metadata : SkMeta
  files : List (String × String)
deriving Repr, DecidableEq

/-- `serialize_sklearn` (sklearn_utils.py lines 79-93): fitted-check probe,
pickle the model, attach included files under `deps/`, compute metadata,
return the `sklearn`-tagged serialized model. -/
def serialize_sklearn (env : PkgEnv) (backend : String) (fs : Fs)
    (model : SkModel) (include_files : Option (List String)) :
    Except PyExc SerializedModel :=
  match fitProbe model.probe with
  | .error e => .error e
  | .ok () =>
    let content := model.pickled
    let files := add_file_deps fs [("model.pickle", content)] include_files
    match sklearn_get_model_metadata env backend fs model include_files with
    | .error e => .error e
    | .ok meta => .ok ⟨"sklearn", meta, files⟩

/-! ## C5 theorems -/
/-- Minimal installed database for the sklearn adapter examples. -/
def envSk : PkgEnv := [("scikit-learn", ⟨"0.20.3", []⟩)]

/-- An empty file-content oracle. -/
def fsEmpty : Fs := ⟨fun _ => [], fun _ => ""⟩

/-- A fitted plain estimator whose trivial-input probe raises a `ValueError`
(the shape complaint sklearn emits for a trained model probed with `[0]`). -/
def modelProbeValueErr : SkModel :=
  ⟨⟨"<class 'sklearn.linear_model.LogisticRegression'>",
    "sklearn.linear_model", false, false, false⟩, true, .plain,
   some (.valueError "Expected 2D array, got 1D array instead"), "PICKLE"⟩

/-! ## Model and version summaries, requests, and the client orchestration
(client.py lines 107-167, model.py lines 98-370) -/
/-- A model-version summary as the server returns it: exactly the fields
`ModelVersion.__init__` (model.py lines 294-303) reads. -/
structure VersionResp where
  id : String
  name : String
  type : String
  meta : String
  deployed : Bool
  created_at : String
  updated_at : String
deriving Repr, DecidableEq

/-- A model summary as the server returns it: exactly the fields
`BlazeeModel._reset` (model.py lines 239-249) reads. -/
structure ModelResp where
  id : String
  name : String
  default_version : Option VersionResp
  created_at : String
  updated_at : String
deriving Repr, DecidableEq

/-- The `upload_data` pre-signed upload descriptor `{url, fields}` returned
on model / version creation. -/
structure UploadData where
  url : String
  fields : String
deriving Repr, DecidableEq

/-- The shape of a request's JSON body (or form payload), as needed to tell
the issued requests apart. -/
inductive ReqBody where
  | emptyB
  | nameB (name : String)
  | defaultVersionIdB (version_id : String)
  | modelCreateB (name : String) (type : String)
  | versionCreateB (type : String) (meta : List (String × String))
  | predictB (data : String)
  | uploadB (fields : String) (file : String)
  | uploadZipB (fields : String) (file : List ZipEntry)
deriving Repr, DecidableEq

/-- One HTTP request issued by the client (through `_api_call` or directly
via `requests.post` for pre-signed uploads), recorded for frame-condition
reasoning. -/
structure Request where
  method : String
  path : String
  body : ReqBody
deriving Repr, DecidableEq

/-- The attribute names a `BlazeeModel` instance carries: the two assigned in
`__init__` (model.py lines 102-105) plus the five assigned in `_reset`
(model.py lines 239-249).  No other instance attribute is ever assigned
anywhere in the class, so a Python read of any other name raises
`AttributeError`. -/
def blazeeModelAttrs : List String :=
  ["client", "_deleted", "id", "name", "default_version", "created_at",
   "updated_at"]

/-- The readiness test `m.uploaded` of the poll loop (client.py line 165):
Python attribute lookup on the handle that `get_model` has just constructed.
`uploaded` is not among `blazeeModelAttrs` — it is never assigned — so the
lookup raises `AttributeError` no matter what model summary the server
returned. -/
def m_uploaded (_m : ModelResp) : Except PyExc Bool :=
  .error (.attributeError "'BlazeeModel' object has no attribute 'uploaded'")

/-- `Client._wait_for_depoyment` (client.py lines 162-167; the source's
spelling is kept): up to `tries` iterations remain; each iteration performs
one `get_model` status fetch (`statuses i` is the i-th response, `fetched`
counts them) and evaluates `m.uploaded`; returning on a truthy value,
raising `TimeoutError('Deployment timeout')` when the loop falls through.
The source's `wait=5` parameter is accepted and never used: no sleep happens
between attempts.  Returns the outcome together with the total number of
status fetches performed. -/
def wait_for_depoyment (statuses : Nat → ModelResp) (fetched : Nat) :
    Nat → (Except PyExc Unit) × Nat
  | 0 => (.error (.timeoutError "Deployment timeout"), fetched)
  | tries + 1 =>
    match m_uploaded (statuses fetched) with
    | .error e => (.error e, fetched + 1)
    | .ok true => (.ok (), fetched + 1)
    | .ok false => wait_for_depoyment statuses (fetched + 1) tries

/-- `requests.Response.raise_for_status()`: raises `HTTPError` for a 4xx/5xx
status, returns normally otherwise (message abbreviated). -/
def raise_for_status (status : Nat) : Except PyExc Unit :=
  if 400 ≤ status then
    .error (.httpError (Nat.repr status ++ " Error for upload url"))
  else .ok ()

/-- `BlazeeModel.__init__` (model.py lines 102-105) as the handle state it
creates: `_deleted := False` and the `_reset` fields from the response. -/
def blazeeModelInit (response : ModelResp) :
    Bool × String × String × Option VersionResp × String × String :=
  (false, response.id, response.name, response.default_version,
   response.created_at, response.updated_at)

/-- `Client._create_model` (client.py lines 107-130), from the `POST /models`
response onward, parameterized by the status of the pre-signed binary upload
and by the server's poll responses.  Returns the outcome together with every
request issued.  After a successful upload the handle is constructed and
`_wait_for_depoyment` runs with its defaults (`wait=5`, `max_tries=30`);
a `TimeoutError` from it is caught, the model deleted and a bare
`RuntimeError("Error deploying model")` raised (lines 125-129); any other
exception propagates unchanged and triggers no cleanup. -/
def create_model (type model_name model_content : String)
    (createResp : ModelResp) (uploadData : UploadData) (uploadStatus : Nat)
    (statuses : Nat → ModelResp) :
    (Except PyExc ModelResp) × List Request :=
  let req0 : Request := ⟨"POST", "/models", .modelCreateB model_name type⟩
  let upReq : Request :=
    ⟨"POST", uploadData.url, .uploadB uploadData.fields model_content⟩
  match raise_for_status uploadStatus with
  | .error e => (.error e, [req0, upReq])
  | .ok () =>
    let waited := wait_for_depoyment statuses 0 30
    let polls : List Request := (List.range waited.2).map
      (fun _ => ⟨"GET", "/models/" ++ createResp.id, .emptyB⟩)
    match waited.1 with
    | .ok () => (.ok createResp, [req0, upReq] ++ polls)
    | .error (.timeoutError _) =>
      (.error (.runtimeError "Error deploying model"),
       [req0, upReq] ++ polls
         ++ [⟨"DELETE", "/models/" ++ createResp.id, .emptyB⟩])
    | .error e => (.error e, [req0, upReq] ++ polls)

/-- Concrete model summary used in the orchestration examples. -/
def respM1 : ModelResp :=
  ⟨"11111111-2222-3333-4444-555555555555", "SGDClassifier 2019-05-01T10:00:00",
   none, "2019-05-01T10:00:00", "2019-05-01T10:00:00"⟩

/-- Concrete pre-signed upload descriptor used in the orchestration
examples. -/
def upD1 : UploadData := ⟨"https://uploads.blazee.example/presigned", "key=abc"⟩

/-! ## model.py serialization (`_serialize_model`, lines 40-95) and the
`BlazeeModel` / `ModelVersion` handle operations (lines 98-370) -/
/-- model.py `_generate_zip` (lines 40-48): a fresh archive holding one entry
with the `0o644 << 16` read bits. -/
def model_generate_zip (file_name content : String) : List ZipEntry :=
  writestr [] file_name (0o644 <<< 16) content

/-- model.py `_is_sklearn` (lines 90-95): `isinstance(model, BaseEstimator)`
behind a best-effort import. -/
def model_is_sklearn (model : SkModel) : Bool :=
  model.isBaseEstimator

/-- The pipeline step check of model.py `_serialize_model` (lines 57-61):
the first step whose class module is not under `sklearn.` raises
`TypeError`. -/
def checkSteps : List (String × PyEst) → Except PyExc Unit
  | [] => .ok ()
  | (name, step) :: rest =>
    if !(step.module.startsWith "sklearn.") then
      .error (.typeError ("Pipeline contains step " ++ name ++ " of type "
        ++ step.typeName
        ++ " which is not supported. You must use a model or Pipeline that only contains estimators from the Scikit Learn library."))
    else checkSteps rest

/-- model.py `_serialize_model` (lines 51-75): sklearn gate, module checks,
fitted-check probe (same swallow behaviour as `fitProbe`), pickle and zip. -/
def model_serialize_model (model : SkModel) :
    Except PyExc (String × List ZipEntry) :=
  if model_is_sklearn model then
    if !(model.est.module.startsWith "sklearn.") then
      .error (.typeError ("Model of type " ++ model.est.typeName
        ++ " is not supported. You must use a model or Pipeline that only contains estimators from the Scikit Learn library."))
    else
      match (match model.kind with
             | .pipeline steps => checkSteps steps
             | _ => .ok ()) with
      | .error e => .error e
      | .ok () =>
        match fitProbe model.probe with
        | .error e => .error e
        | .ok () =>
          .ok ("sklearn", model_generate_zip "model.pickle" model.pickled)
  else
    .error (.typeError ("Model Type not supported: " ++ model.est.typeName))

/-- model.py `_get_model_metadata` (lines 78-87), parameterized by the
installed scikit-learn version reported by `sklearn.__version__`. -/
def model_get_model_metadata (sklearnVersion : String) (model : SkModel) :
    Except PyExc (List (String × String)) :=
  if model_is_sklearn model then
    .ok [("scikit-learn", sklearnVersion)]
  else
    .error (.typeError ("Model Type not supported: " ++ model.est.typeName))

/-- The local `BlazeeModel` handle state: exactly the attributes assigned by
`__init__` (model.py 102-105) and `_reset` (239-249), minus the constant
back-reference to the client. -/
structure HandleState where
  deletedF : Bool
  id : String
  name : String
  default_version : Option VersionResp
  created_at : String
  updated_at : String
deriving Repr, DecidableEq

/-- `BlazeeModel._reset` (model.py lines 239-249): overwrite every summary
field from the response; the `_deleted` flag is not touched. -/
def reset_handle (s : HandleState) (response : ModelResp) : HandleState :=
  ⟨s.deletedF, response.id, response.name, response.default_version,
   response.created_at, response.updated_at⟩

/-- `BlazeeModel._check_deleted` (model.py lines 255-257). -/
def check_deleted (s : HandleState) : Except PyExc Unit :=
  if s.deletedF then
    .error (.assertionError "Model is deleted. Cannot perform operation")
  else .ok ()

/-- `BlazeeModel.rename` (model.py lines 107-127): guard, `PATCH` the name,
refresh.  `refreshResp` is the server's `GET /models/{id}` answer. -/
def rename (s : HandleState) (name : String) (refreshResp : ModelResp) :
    (Except PyExc Unit) × HandleState × List Request :=
  match check_deleted s with
  | .error e => (.error e, s, [])
  | .ok () =>
    (.ok (), reset_handle s refreshResp,
     [⟨"PATCH", "/models/" ++ s.id, .nameB name⟩,
      ⟨"GET", "/models/" ++ s.id, .emptyB⟩])

/-- `BlazeeModel.versions` (model.py lines 129-138): guard, `GET` the version
list. -/
def versions (s : HandleState) (versionsResp : List VersionResp) :
    (Except PyExc (List VersionResp)) × HandleState × List Request :=
  match check_deleted s with
  | .error e => (.error e, s, [])
  | .ok () =>
    (.ok versionsResp, s,
     [⟨"GET", "/models/" ++ s.id ++ "/versions", .emptyB⟩])

/-- `BlazeeModel.get_version` (model.py lines 140-152): guard, fetch the
versions (through `versions`, which re-checks the guard), linear scan by id
or name, `ValueError` when nothing matches. -/
def get_version (s : HandleState) (name_or_id : String)
    (versionsResp : List VersionResp) :
    (Except PyExc VersionResp) × HandleState × List Request :=
  match check_deleted s with
  | .error e => (.error e, s, [])
  | .ok () =>
    match versions s versionsResp with
    | (.error e, s2, reqs) => (.error e, s2, reqs)
    | (.ok vs, s2, reqs) =>
      match vs.find? (fun v => name_or_id == v.id || name_or_id == v.name) with
      | some v => (.ok v, s2, reqs)
      | none =>
        (.error (.valueError ("No version with ID or name " ++ name_or_id)),
         s2, reqs)

/-- `BlazeeModel.delete` (model.py lines 154-159): guard, `DELETE`, set the
local terminal flag. -/
def delete (s : HandleState) :
    (Except PyExc Unit) × HandleState × List Request :=
  match check_deleted s with
  | .error e => (.error e, s, [])
  | .ok () =>
    (.ok (), ⟨true, s.id, s.name, s.default_version, s.created_at,
      s.updated_at⟩,
     [⟨"DELETE", "/models/" ++ s.id, .emptyB⟩])

/-- `BlazeeModel.predict` (model.py lines 188-210): guard, `POST` the
features, wrap the response. -/
def predict (s : HandleState) (data : String) (predictResp : String) :
    (Except PyExc String) × HandleState × List Request :=
  match check_deleted s with
  | .error e => (.error e, s, [])
  | .ok () =>
    (.ok predictResp, s,
     [⟨"POST", "/models/" ++ s.id ++ "/predict", .predictB data⟩])

/-- `BlazeeModel.predict_batch` (model.py lines 212-237): guard, `POST` the
batch, wrap each response element. -/
def predict_batch (s : HandleState) (data : String)
    (predictResps : List String) :
    (Except PyExc (List String)) × HandleState × List Request :=
  match check_deleted s with
  | .error e => (.error e, s, [])
  | .ok () =>
    (.ok predictResps, s,
     [⟨"POST", "/models/" ++ s.id ++ "/predict_batch", .predictB data⟩])

/-- `BlazeeModel._upload_version` (model.py lines 265-287): create the
version (`POST`), upload the archive to the pre-signed target, abort on a
bad upload status, trigger deployment (`PATCH .../deploy`), refresh the
handle, return the deployed version. -/
def upload_version (s : HandleState) (model_type : String)
    (content : List ZipEntry) (metadata : List (String × String))
    (createdVersion : VersionResp) (uploadData : UploadData)
    (uploadStatus : Nat) (deployResp : VersionResp)
    (refreshResp : ModelResp) :
    (Except PyExc VersionResp) × HandleState × List Request :=
  let req0 : Request :=
    ⟨"POST", "/models/" ++ s.id ++ "/versions",
     .versionCreateB model_type metadata⟩
  let upReq : Request :=
    ⟨"POST", uploadData.url, .uploadZipB uploadData.fields content⟩
  match raise_for_status uploadStatus with
  | .error e => (.error e, s, [req0, upReq])
  | .ok () =>
    (.ok deployResp, reset_handle s refreshResp,
     [req0, upReq,
      ⟨"PATCH", "/models/" ++ s.id ++ "/versions/" ++ createdVersion.id
        ++ "/deploy", .emptyB⟩,
      ⟨"GET", "/models/" ++ s.id, .emptyB⟩])

/-- `BlazeeModel.update` (model.py lines 161-186): guard, serialize the new
model, collect metadata, upload the new version.  The `default` parameter is
accepted and — exactly as in the source — never used by the body. -/
def update (s : HandleState) (model : SkModel) (default : Bool)
    (sklearnVersion : String) (createdVersion : VersionResp)
    (uploadData : UploadData) (uploadStatus : Nat)
    (deployResp : VersionResp) (refreshResp : ModelResp) :
    (Except PyExc VersionResp) × HandleState × List Request :=
  match check_deleted s with
  | .error e => (.error e, s, [])
  | .ok () =>
    match model_serialize_model model with
    | .error e => (.error e, s, [])
    | .ok (model_type, content) =>
      match model_get_model_metadata sklearnVersion model with
      | .error e => (.error e, s, [])
      | .ok metadata =>
        upload_version s model_type content metadata createdVersion
          uploadData uploadStatus deployResp refreshResp

/-- `ModelVersion.make_default` (model.py lines 359-369): `PATCH` the parent
model's `default_version_id` to this version's id, then refresh the parent
handle.  (A `ModelVersion` method: it performs no deleted-handle check.) -/
def make_default (s : HandleState) (version_id : String)
    (refreshResp : ModelResp) :
    (Except PyExc Unit) × HandleState × List Request :=
  (.ok (), reset_handle s refreshResp,
   [⟨"PATCH", "/models/" ++ s.id, .defaultVersionIdB version_id⟩,
    ⟨"GET", "/models/" ++ s.id, .emptyB⟩])

/-- Does a request body carry a `default_version_id` field (the only body
shape that changes the server-side default-version reference)? -/
def setsDefaultVersion : ReqBody → Bool
  | .defaultVersionIdB _ => true
  | _ => false

/-! ## On-disk export adapters: `serialize_keras` (keras_utils.py 15-33),
`serialize_xgboost` (xgboost_utils.py 24-42), `serialize_lightgbm`
(lightgbm_utils.py 24-42) -/
/-- The file-system outcomes of one adapter call's temp-file dance: whether
the model's on-disk export (`model.save(tmp)` / `model.save_model(tmp)`)
succeeds, what re-opening and reading the file yields, and whether
`os.remove(tmp)` succeeds (its `OSError` is swallowed by the source). -/
structure TmpFs where
  saveResult : Option PyExc
  readResult : Except PyExc String
  removeResult : Option PyExc
deriving Repr

/-- One observable file-system operation of the temp-file dance. -/
inductive FsOp where
  | save (path : String)
  | readF (path : String)
  | removeAttempt (path : String)
  | removed (path : String)
deriving Repr, DecidableEq

/-- The `finally` block shared by the three adapters (keras_utils.py 22-26,
xgboost_utils.py 30-34, lightgbm_utils.py 30-34): always attempt
`os.remove(tmp_file)`, swallowing any `OSError`. -/
def finallyRemove (tfs : TmpFs) (tmp_file : String) : List FsOp :=
  match tfs.removeResult with
  | none => [.removeAttempt tmp_file, .removed tmp_file]
  | some _ => [.removeAttempt tmp_file]

/-- The `try: export; open and read / finally: remove` block shared verbatim
by the three adapters: the export and the read may each raise, and the
`finally` clause runs on every exit path.  Returns the bytes read (or the
propagated exception) together with the file-system trace. -/
def tmpExport (tfs : TmpFs) (tmp_file : String) :
    (Except PyExc String) × List FsOp :=
  match tfs.saveResult with
  | some e => (.error e, [.save tmp_file] ++ finallyRemove tfs tmp_file)
  | none =>
    match tfs.readResult with
    | .error e =>
      (.error e, [.save tmp_file, .readF tmp_file] ++ finallyRemove tfs tmp_file)
    | .ok buffer =>
      (.ok buffer, [.save tmp_file, .readF tmp_file] ++ finallyRemove tfs tmp_file)

/-- keras_utils `_get_model_metadata` (lines 52-57). -/
def keras_get_model_metadata (env : PkgEnv) (backend : String)
    (include_files : Option (List String)) : Except PyExc SkMeta :=
  match get_keras_deps backend with
  | .error e => .error e
  | .ok deps =>
    match get_requirements env deps with
    | .error e => .error e
    | .ok libv => .ok ⟨libv, include_files⟩

/-- `serialize_keras` (keras_utils.py lines 15-33): export to the fixed
relative path `tmp.h5` ("Unfortunately we cannot do that in memory yet, so
use temp file"), read it back, remove it in the `finally` block, then attach
included files and metadata. -/
def serialize_keras (env : PkgEnv) (backend : String) (fs : Fs) (tfs : TmpFs)
    (include_files : Option (List String)) :
    (Except PyExc SerializedModel) × List FsOp :=
  let tmp_file := "tmp.h5"
  match tmpExport tfs tmp_file with
  | (.error e, trace) => (.error e, trace)
  | (.ok weights, trace) =>
    let files := add_file_deps fs [("model.h5", weights)] include_files
    match keras_get_model_metadata env backend include_files with
    | .error e => (.error e, trace)
    | .ok meta => (.ok ⟨"keras", meta, files⟩, trace)

/-- xgboost_utils `_get_model_metadata` (lines 16-21). -/
def xgboost_get_model_metadata (env : PkgEnv)
    (include_files : Option (List String)) : Except PyExc SkMeta :=
  match get_requirements env ["xgboost"] with
  | .error e => .error e
  | .ok libv => .ok ⟨libv, include_files⟩

/-- `serialize_xgboost` (xgboost_utils.py lines 24-42): export to the fixed
relative path `tmp.txt`, read it back, remove it in the `finally` block. -/
def serialize_xgboost (env : PkgEnv) (fs : Fs) (tfs : TmpFs)
    (include_files : Option (List String)) :
    (Except PyExc SerializedModel) × List FsOp :=
  let tmp_file := "tmp.txt"
  match tmpExport tfs tmp_file with
  | (.error e, trace) => (.error e, trace)
  | (.ok buffer, trace) =>
    let files := add_file_deps fs [("model.txt", buffer)] include_files
    match xgboost_get_model_metadata env include_files with
    | .error e => (.error e, trace)
    | .ok meta => (.ok ⟨"xgboost", meta, files⟩, trace)

/-- lightgbm_utils `_get_model_metadata` (lines 16-21). -/
def lightgbm_get_model_metadata (env : PkgEnv)
    (include_files : Option (List String)) : Except PyExc SkMeta :=
  match get_requirements env ["lightgbm"] with
  | .error e => .error e
  | .ok libv => .ok ⟨libv, include_files⟩

/-- `serialize_lightgbm` (lightgbm_utils.py lines 24-42): export to the SAME
fixed relative path `tmp.txt` as the xgboost adapter, read it back, remove
it in the `finally` block. -/
def serialize_lightgbm (env : PkgEnv) (fs : Fs) (tfs : TmpFs)
    (include_files : Option (List String)) :
    (Except PyExc SerializedModel) × List FsOp :=
  let tmp_file := "tmp.txt"
  match tmpExport tfs tmp_file with
  | (.error e, trace) => (.error e, trace)
  | (.ok buffer, trace) =>
    let files := add_file_deps fs [("model.txt", buffer)] include_files
    match lightgbm_get_model_metadata env include_files with
    | .error e => (.error e, trace)
    | .ok meta => (.ok ⟨"lightgbm", meta, files⟩, trace)

/-- A temp-file oracle for a fully successful export. -/
def tfsOK : TmpFs := ⟨none, .ok "WEIGHTS", none⟩

/-- A temp-file oracle for an export that fails at save time (disk error). -/
def tfsSaveFail : TmpFs :=
  ⟨some (.oserror "No space left on device"), .ok "WEIGHTS", none⟩

/-! ## C4 theorems -/
/-- C4: every HTTP response is classified in order: status ≥ 500 raises the
server error; status 403 raises the authentication error; a parsed body with
an `error` field raises the API error whose message concatenates the machine
code, the human message and every detail string; otherwise the parsed body is
returned verbatim.  In particular a 500 response raises the server error even
when the body is not valid JSON (the body is never parsed on that path). -/
theorem apiCall_classification (resp : HttpResponse) :
    (500 ≤ resp.status_code →
      api_call resp = .error (.httpError (serverErrorMsg resp.status_code)))
  ∧ (resp.status_code < 500 → resp.status_code = 403 →
      api_call resp = .error (.httpError authErrorMsg))
  ∧ (∀ body e, resp.status_code < 500 → resp.status_code ≠ 403 →
      resp.json = some body → body.error = some e →
      api_call resp = .error (.httpError (apiErrorMsg resp.status_code e)))
  ∧ (∀ body, resp.status_code < 500 → resp.status_code ≠ 403 →
      resp.json = some body → body.error = none →
      api_call resp = .ok body)
  ∧ (500 ≤ resp.status_code → resp.json = none →
      api_call resp = .error (.httpError (serverErrorMsg resp.status_code))) := by
  constructor
  · intro h
    simp [api_call, h]
  constructor
  · intro hlt h403
    simp [api_call, h403, Nat.not_le.mpr hlt]
  constructor
  · intro body e hlt h403 hjson herr
    simp [api_call, Nat.not_le.mpr hlt, h403, hjson, herr]
  constructor
  · intro body hlt h403 hjson herr
    simp [api_call, Nat.not_le.mpr hlt, h403, hjson, herr]
  · intro h _
    simp [api_call, h]

/-- Witness for C4: the classification theorem applied at concrete responses:
a 500 with an unparseable body, a 403, a 404 with a structured error body, and
a 200 success body. -/
theorem apiCall_classification_witness :
    (api_call ⟨500, none⟩ = .error (.httpError (serverErrorMsg 500)))
  ∧ (api_call ⟨403, some ⟨none, "ignored"⟩⟩ = .error (.httpError authErrorMsg))
  ∧ (api_call ⟨404, some ⟨some ⟨"MODEL_NOT_FOUND", "Model does not exist", ["d1", "d2"]⟩, ""⟩⟩
      = .error (.httpError (apiErrorMsg 404 ⟨"MODEL_NOT_FOUND", "Model does not exist", ["d1", "d2"]⟩)))
  ∧ (api_call ⟨200, some ⟨none, "models"⟩⟩ = .ok ⟨none, "models"⟩) :=
  ⟨(apiCall_classification ⟨500, none⟩).1 (by decide),
   (apiCall_classification ⟨403, some ⟨none, "ignored"⟩⟩).2.1 (by decide) (by decide),
   (apiCall_classification ⟨404, some ⟨some ⟨"MODEL_NOT_FOUND", "Model does not exist", ["d1", "d2"]⟩, ""⟩⟩).2.2.1
      ⟨some ⟨"MODEL_NOT_FOUND", "Model does not exist", ["d1", "d2"]⟩, ""⟩
      ⟨"MODEL_NOT_FOUND", "Model does not exist", ["d1", "d2"]⟩
      (by decide) (by decide) rfl rfl,
   (apiCall_classification ⟨200, some ⟨none, "models"⟩⟩).2.2.2.1
      ⟨none, "models"⟩ (by decide) (by decide) rfl rfl⟩

/-! ## C7 theorems -/
/-- The fold inside `generate_zip` appends exactly one entry per input pair. -/
theorem generateZip_go (files : List (String × String)) (acc : List ZipEntry) :
    files.foldl (fun zf fc => writestr zf fc.1 (0o644 <<< 16) fc.2) acc
      = acc ++ files.map (fun fc => ⟨fc.1, 0o644 <<< 16, fc.2⟩) := by
  induction files generalizing acc with
  | nil => simp
  | cons fc rest ih =>
    rw [List.foldl_cons, ih]
    simp [writestr]

/-- C7: the archive built by `generate_zip` holds each input
`(path, content)` pair exactly once (multiset-count equality, so no pair is
silently dropped), every entry carries the uniform `0o644 << 16` permission
bits, and extracting the archive recovers exactly the input pairs — the same
paths with byte-identical contents, in order (hence also as sets). -/
theorem generateZip_roundtrip (files : List (String × String)) :
    unarchive (generate_zip files) = files
  ∧ (∀ p : String × String, (unarchive (generate_zip files)).count p = files.count p)
  ∧ (∀ e ∈ generate_zip files, e.external_attr = 0o644 <<< 16) := by
  have hzip : generate_zip files
      = files.map (fun fc => ⟨fc.1, 0o644 <<< 16, fc.2⟩) := by
    simpa using generateZip_go files []
  refine ⟨?_, ?_, ?_⟩
  · rw [hzip]
    simp [unarchive, Function.comp_def]
  · intro p
    rw [hzip]
    simp [unarchive, Function.comp_def]
  · intro e he
    rw [hzip] at he
    obtain ⟨fc, _, rfl⟩ := List.mem_map.mp he
    rfl

/-- Witness for C7: the round-trip theorem applied to a concrete two-file
list, every hypothesis discharged by evaluation. -/
theorem generateZip_roundtrip_witness :
    unarchive (generate_zip [("model.pickle", "bytes1"), ("deps/util.py", "bytes2")])
      = [("model.pickle", "bytes1"), ("deps/util.py", "bytes2")]
  ∧ (unarchive (generate_zip [("model.pickle", "bytes1"), ("deps/util.py", "bytes2")])).count
      ("model.pickle", "bytes1") = 1
  ∧ (⟨"model.pickle", 0o644 <<< 16, "bytes1"⟩ : ZipEntry).external_attr = 0o644 <<< 16 :=
  ⟨(generateZip_roundtrip [("model.pickle", "bytes1"), ("deps/util.py", "bytes2")]).1,
   by
    rw [(generateZip_roundtrip [("model.pickle", "bytes1"), ("deps/util.py", "bytes2")]).2.1
      ("model.pickle", "bytes1")]
    decide,
   (generateZip_roundtrip [("model.pickle", "bytes1"), ("deps/util.py", "bytes2")]).2.2
      ⟨"model.pickle", 0o644 <<< 16, "bytes1"⟩ (by decide)⟩

/-! ## C8 proof infrastructure -/
/-- Unfolding `dictMerge` over a cons cell of the left dict. -/
theorem dictMerge_cons (k' v' : String) (a b : List (String × String)) :
    dictMerge ((k', v') :: a) b
      = if (List.lookup k' b).isNone then (k', v') :: dictMerge a b
        else dictMerge a b := by
  by_cases h : (List.lookup k' b).isNone <;> simp [dictMerge, List.filter_cons, h]

/-- A key present in the right dict of a `{**a, **b}` merge keeps the right
dict's value. -/
theorem dictMerge_lookup_right {b : List (String × String)} {k v : String}
    (a : List (String × String)) (hb : List.lookup k b = some v) :
    List.lookup k (dictMerge a b) = some v := by
  induction a with
  | nil => simpa [dictMerge] using hb
  | cons kv a ih =>
    obtain ⟨k', v'⟩ := kv
    rw [dictMerge_cons]
    by_cases hnone : (List.lookup k' b).isNone
    · rw [if_pos hnone]
      have hne : k ≠ k' := by
        intro heq
        rw [← heq, hb] at hnone
        simp at hnone
      simpa [List.lookup, beq_false_of_ne hne] using ih
    · rw [if_neg hnone]
      exact ih

/-- A key absent from the right dict of a `{**a, **b}` merge keeps the left
dict's binding. -/
theorem dictMerge_lookup_left {b : List (String × String)} {k : String}
    (a : List (String × String)) (hb : List.lookup k b = none) :
    List.lookup k (dictMerge a b) = List.lookup k a := by
  induction a with
  | nil => simpa [dictMerge] using hb
  | cons kv a ih =>
    obtain ⟨k', v'⟩ := kv
    rw [dictMerge_cons]
    by_cases heq : k = k'
    · subst heq
      have : ¬(List.lookup k b).isNone = true → False := by simp [hb]
      rw [if_pos (by simp [hb])]
      simp [List.lookup]
    · by_cases hnone : (List.lookup k' b).isNone
      · rw [if_pos hnone]
        simpa [List.lookup, beq_false_of_ne heq] using ih
      · rw [if_neg hnone]
        rw [ih]
        simp [List.lookup, beq_false_of_ne heq]

/-- A `{**a, **b}` binding has a key bound in `a` or in `b`. -/
theorem dictMerge_lookup_cases {a b : List (String × String)} {k v : String}
    (h : List.lookup k (dictMerge a b) = some v) :
    List.lookup k a = some v ∨ List.lookup k b = some v := by
  cases hb : List.lookup k b with
  | none => exact .inl ((dictMerge_lookup_left a hb) ▸ h)
  | some w =>
    rw [dictMerge_lookup_right a hb] at h
    exact .inr h

/-- `{**a, **b}` binds a key exactly when `a` or `b` does. -/
theorem dictMerge_lookup_isSome (a b : List (String × String)) (k : String) :
    (List.lookup k (dictMerge a b)).isSome
      ↔ ((List.lookup k a).isSome ∨ (List.lookup k b).isSome) := by
  cases hb : List.lookup k b with
  | none => simp [dictMerge_lookup_left a hb]
  | some w => simp [dictMerge_lookup_right a hb]

/-- A dict binds a key exactly when the key is among its first components. -/
theorem lookup_isSome_iff_mem_keys (m : List (String × String)) (k : String) :
    (List.lookup k m).isSome ↔ k ∈ m.map Prod.fst := by
  induction m with
  | nil => simp
  | cons kv m ih =>
    obtain ⟨k', v'⟩ := kv
    by_cases heq : k = k'
    · subst heq
      simp [List.lookup]
    · simp [List.lookup, beq_false_of_ne heq, heq, ih]

/-- The start of an avoiding chain is not on the avoided list. -/
theorem ReachAvoid.not_mem {env : PkgEnv} {S : List String} {p x : String}
    (h : ReachAvoid env S p x) : p ∉ S := by
  cases h with
  | refl _ h => exact h
  | step h _ _ _ => exact h

/-- Shrinking the avoided list preserves avoiding reachability. -/
theorem ReachAvoid.mono {env : PkgEnv} {S T : List String} {p x : String}
    (hsub : ∀ y ∈ S, y ∈ T) (h : ReachAvoid env T p x) : ReachAvoid env S p x := by
  induction h with
  | refl q hq => exact .refl q (fun hmem => hq (hsub q hmem))
  | step hp hd hq _ ih => exact .step (fun hmem => hp (hsub _ hmem)) hd hq ih

/-- An avoiding chain extends along one more declared-dependency edge. -/
theorem ReachAvoid.snoc {env : PkgEnv} {S : List String} {p y z : String}
    {d : Dist} (h : ReachAvoid env S p y)
    (hd : get_distribution env y = some d) (hz : z ∈ d.requires) (hzS : z ∉ S) :
    ReachAvoid env S p z := by
  induction h with
  | refl q hq => exact .step hq hd hz (.refl z hzS)
  | step hp hdist hq _ ih => exact .step hp hdist hq (ih hd)

/-- Visited-set absorption: if `T` contains the avoided list `S` and is closed
under `S`-avoiding dependency edges out of `T \ S`, then anything reachable
while avoiding only `S` is either already in `T` or reachable avoiding all of
`T`.  This is the heart of the correctness of depth-first traversal with a
shared visited list. -/
theorem ReachAvoid.absorb {env : PkgEnv} {S T : List String} {p x : String}
    (hclosed : ∀ y ∈ T, y ∉ S → ∀ d z, get_distribution env y = some d →
      z ∈ d.requires → z ∉ S → z ∈ T)
    (h : ReachAvoid env S p x) : x ∈ T ∨ ReachAvoid env T p x := by
  induction h with
  | refl q hq =>
    by_cases hT : q ∈ T
    · exact .inl hT
    · exact .inr (.refl q hT)
  | @step p' q' x' d hp hd hq hr ih =>
    rcases ih with hxT | hra
    · exact .inl hxT
    · by_cases hpT : p' ∈ T
      · exact absurd (hclosed p' hpT hp d q' hd hq hr.not_mem) hra.not_mem
      · exact .inr (.step hpT hd hq hra)

/-- Unfolding `get_distribution` over a cons cell of the database. -/
theorem get_distribution_cons (e : String × Dist) (env : PkgEnv) (p : String) :
    get_distribution (e :: env) p
      = if e.1 = p then some e.2 else get_distribution env p := by
  by_cases h : e.1 = p
  · simp [get_distribution, List.find?, h]
  · simp [get_distribution, List.find?, beq_false_of_ne h, h]

/-- A name is installed exactly when it occurs in the database. -/
theorem get_distribution_isSome_iff (env : PkgEnv) (p : String) :
    (get_distribution env p).isSome ↔ p ∈ env.map Prod.fst := by
  induction env with
  | nil => simp [get_distribution]
  | cons e env ih =>
    rw [get_distribution_cons]
    by_cases h : e.1 = p
    · simp [h]
    · have h2 : ¬p = e.1 := fun hh => h hh.symm
      simp [h, h2, ih]

/-- Unbounded form of `DepClosed`: every requirement of a found distribution
is installed. -/
theorem depClosed_requires {env : PkgEnv} (h : DepClosed env) {p : String}
    {d : Dist} (hd : get_distribution env p = some d) :
    ∀ q ∈ d.requires, (get_distribution env q).isSome := by
  intro q hq
  unfold get_distribution at hd
  obtain ⟨e, hfind, he2⟩ : ∃ e, List.find? (fun e => e.1 == p) env = some e ∧ e.2 = d := by
    cases hfe : List.find? (fun e => e.1 == p) env with
    | none => simp [hfe] at hd
    | some e => exact ⟨e, rfl, by simpa [hfe] using hd⟩
  exact h e (List.mem_of_find?_eq_some hfind) q (he2 ▸ hq)

/-- Visiting a not-yet-visited installed package strictly shrinks the
unvisited count. -/
theorem unvisited_lt (env : PkgEnv) (skip : List String) (package : String)
    (hmem : package ∉ skip) (hins : (get_distribution env package).isSome) :
    unvisited env (skip ++ [package]) < unvisited env skip := by
  unfold unvisited
  apply Finset.card_lt_card
  rw [Finset.ssubset_iff_of_subset]
  · refine ⟨package, ?_, ?_⟩
    · rw [Finset.mem_sdiff]
      refine ⟨?_, ?_⟩
      · rw [List.mem_toFinset]
        exact (get_distribution_isSome_iff env package).mp hins
      · rw [List.mem_toFinset]
        exact hmem
    · rw [Finset.mem_sdiff]
      rintro ⟨-, habs⟩
      exact habs (by simp [List.mem_toFinset])
  · apply Finset.sdiff_subset_sdiff (Finset.Subset.refl _)
    intro y hy
    rw [List.mem_toFinset] at *
    exact List.mem_append_left _ hy

/-- The unvisited count is antitone in the visited list. -/
theorem unvisited_le (env : PkgEnv) (s1 s2 : List String)
    (hsub : ∀ y ∈ s1, y ∈ s2) : unvisited env s2 ≤ unvisited env s1 := by
  unfold unvisited
  apply Finset.card_le_card
  apply Finset.sdiff_subset_sdiff (Finset.Subset.refl _)
  intro y hy
  rw [List.mem_toFinset] at *
  exact hsub y hy

/-- One-step unfolding of `givFold` on an empty requirements list. -/
theorem givFold_nil (env : PkgEnv) (fuel : Nat) (skip : List String)
    (requirements : List (String × String)) :
    givFold env fuel skip [] requirements = .ok (requirements, skip) := by
  rfl

/-- One-step unfolding of `givFold` on a cons cell. -/
theorem givFold_cons (env : PkgEnv) (fuel : Nat) (skip : List String)
    (dep : String) (rest : List String)
    (requirements : List (String × String)) :
    givFold env fuel skip (dep :: rest) requirements
      = match givFuel env fuel skip dep with
        | .error e => .error e
        | .ok (dep_reqs, skip2) =>
          givFold env fuel skip2 rest (dictMerge requirements dep_reqs) := by
  rfl

/-- One-step unfolding of `givFuel` at positive fuel. -/
theorem givFuel_succ (env : PkgEnv) (fuel' : Nat) (skip : List String)
    (package : String) :
    givFuel env (fuel' + 1) skip package
      = if package ∈ skip then .ok ([], skip)
        else match get_distribution env package with
          | none => .error (.distributionNotFound package)
          | some dist =>
            givFold env fuel' (skip ++ [package]) dist.requires
              [(package, dist.version)] := by
  rfl

/-- The requirements loop is correct whenever each recursive call is: given
enough fuel and installed requirement names, it succeeds and accumulates
exactly the names reachable from the processed requirements while avoiding
the incoming visited list. -/
theorem givFold_spec (env : PkgEnv) (fuel : Nat)
    (IH : ∀ skip package, unvisited env skip < fuel →
      (package ∈ skip ∨ (get_distribution env package).isSome) →
      GivSpec env skip package (givFuel env fuel skip package))
    (deps : List String) :
    ∀ skip acc, unvisited env skip < fuel →
      (∀ dep ∈ deps, (get_distribution env dep).isSome) →
      FoldSpec env skip deps acc (givFold env fuel skip deps acc) := by
  induction deps with
  | nil =>
    intro skip acc hfuel _
    refine ⟨acc, skip, givFold_nil env fuel skip acc, ?_, ?_, ?_⟩
    · intro x; simp
    · intro k; simp
    · intro k v h; exact .inl h
  | cons dep rest ih =>
    intro skip acc hfuel hdeps
    obtain ⟨m1, skip1, hout1, hskip1, hkeys1, hvals1⟩ :=
      IH skip dep hfuel (.inr (hdeps dep (by simp)))
    have hsub1 : ∀ y ∈ skip, y ∈ skip1 := fun y hy => (hskip1 y).mpr (.inl hy)
    have hclosed1 : ∀ y ∈ skip1, y ∉ skip → ∀ d z,
        get_distribution env y = some d → z ∈ d.requires → z ∉ skip →
        z ∈ skip1 := by
      intro y hy hyn d z hd hz hzn
      rcases (hskip1 y).mp hy with hcase | hra
      · exact absurd hcase hyn
      · exact (hskip1 z).mpr (.inr (hra.snoc hd hz hzn))
    have hfuel1 : unvisited env skip1 < fuel :=
      lt_of_le_of_lt (unvisited_le env skip skip1 hsub1) hfuel
    obtain ⟨m2, skip2, hout2, hskip2, hkeys2, hvals2⟩ :=
      ih skip1 (dictMerge acc m1) hfuel1 (fun q hq => hdeps q (by simp [hq]))
    have hsub2 : ∀ y ∈ skip1, y ∈ skip2 := fun y hy => (hskip2 y).mpr (.inl hy)
    refine ⟨m2, skip2, ?_, ?_, ?_, ?_⟩
    · rw [givFold_cons, hout1]
      exact hout2
    · intro x
      rw [hskip2 x]
      constructor
      · rintro (hx1 | ⟨q, hq, hra⟩)
        · rcases (hskip1 x).mp hx1 with hx | hra
          · exact .inl hx
          · exact .inr ⟨dep, by simp, hra⟩
        · exact .inr ⟨q, by simp [hq], hra.mono hsub1⟩
      · rintro (hx | ⟨q, hq, hra⟩)
        · exact .inl (hsub1 x hx)
        · rcases List.mem_cons.mp hq with rfl | hq'
          · exact .inl ((hskip1 x).mpr (.inr hra))
          · rcases hra.absorb hclosed1 with hmem | hra1
            · exact .inl hmem
            · exact .inr ⟨q, hq', hra1⟩
    · intro k
      rw [hkeys2 k, dictMerge_lookup_isSome, hkeys1 k]
      constructor
      · rintro ((h | ⟨h1, h2⟩) | ⟨h1, h2⟩)
        · exact .inl h
        · exact .inr ⟨hsub2 k h1, h2⟩
        · exact .inr ⟨h1, fun hk => h2 (hsub1 k hk)⟩
      · rintro (h | ⟨h1, h2⟩)
        · exact .inl (.inl h)
        · by_cases hx1 : k ∈ skip1
          · exact .inl (.inr ⟨hx1, h2⟩)
          · exact .inr ⟨h1, hx1⟩
    · intro k v hv
      rcases hvals2 k v hv with hmerge | henv
      · rcases dictMerge_lookup_cases hmerge with hacc | hm1
        · exact .inl hacc
        · exact .inr (hvals1 k v hm1)
      · exact .inr henv

/-- Main correctness of `get_installed_versions`' recursion: on a
dependency-closed database, with fuel exceeding the unvisited count, every
call satisfies `GivSpec` — in particular it terminates without hitting the
recursion limit, on cyclic dependency graphs included. -/
theorem givFuel_spec (env : PkgEnv) (hclosed : DepClosed env) :
    ∀ fuel skip package, unvisited env skip < fuel →
      (package ∈ skip ∨ (get_distribution env package).isSome) →
      GivSpec env skip package (givFuel env fuel skip package) := by
  intro fuel
  induction fuel with
  | zero => intro skip package hfuel _; exact absurd hfuel (by simp)
  | succ fuel' ih =>
    intro skip package hfuel hpkg
    rw [givFuel_succ]
    by_cases hmem : package ∈ skip
    · rw [if_pos hmem]
      refine ⟨[], skip, rfl, ?_, ?_, ?_⟩
      · intro x
        constructor
        · exact fun h => .inl h
        · rintro (h | hra)
          · exact h
          · exact absurd hmem hra.not_mem
      · intro k
        simp [List.lookup]
      · intro k v h
        simp [List.lookup] at h
    · rw [if_neg hmem]
      rcases hpkg with h | hins
      · exact absurd h hmem
      obtain ⟨dist, hdist⟩ := Option.isSome_iff_exists.mp hins
      rw [hdist]
      have hfuelK : unvisited env (skip ++ [package]) < fuel' := by
        have h1 := unvisited_lt env skip package hmem hins
        omega
      obtain ⟨m, skip', hout, hskip, hkeys, hvals⟩ :=
        givFold_spec env fuel' ih dist.requires (skip ++ [package])
          [(package, dist.version)] hfuelK
          (depClosed_requires hclosed hdist)
      have hsubK : ∀ y ∈ skip, y ∈ skip ++ [package] :=
        fun y hy => List.mem_append_left _ hy
      have hpkgK : package ∈ skip ++ [package] := by simp
      have hpkgS : package ∈ skip' := (hskip package).mpr (.inl hpkgK)
      have hclosedS : ∀ y ∈ skip', y ∉ skip → ∀ d z,
          get_distribution env y = some d → z ∈ d.requires → z ∉ skip →
          z ∈ skip' := by
        intro y hy hyn d z hd hz hzn
        by_cases hzK : z ∈ skip ++ [package]
        · exact (hskip z).mpr (.inl hzK)
        · rcases (hskip y).mp hy with hyK | ⟨q, hq, hra⟩
          · have hyp : y = package := by
              rcases List.mem_append.mp hyK with h | h
              · exact absurd h hyn
              · simpa using h
            subst hyp
            have hdd : d = dist := by
              rw [hdist] at hd
              injection hd with h
              exact h.symm
            exact (hskip z).mpr (.inr ⟨z, hdd ▸ hz, .refl z hzK⟩)
          · exact (hskip z).mpr (.inr ⟨q, hq, hra.snoc hd hz hzK⟩)
      refine ⟨m, skip', hout, ?_, ?_, ?_⟩
      · intro x
        rw [hskip x]
        constructor
        · rintro (hxK | ⟨q, hq, hra⟩)
          · rcases List.mem_append.mp hxK with h | h
            · exact .inl h
            · have hxp : x = package := by simpa using h
              rw [hxp]
              exact .inr (.refl package hmem)
          · exact .inr (.step hmem hdist hq (hra.mono hsubK))
        · rintro (hx | hra)
          · exact .inl (List.mem_append_left _ hx)
          · rcases hra.absorb hclosedS with hmem' | hra'
            · -- already characterized: fold the characterization back
              rw [hskip x] at hmem'
              exact hmem'
            · exact absurd hpkgS hra'.not_mem
      · intro k
        rw [hkeys k]
        have hsingle : (List.lookup k [(package, dist.version)]).isSome
            ↔ k = package := by
          by_cases h : k = package <;>
            simp [List.lookup, h, beq_false_of_ne, *]
        rw [hsingle]
        constructor
        · rintro (rfl | ⟨h1, h2⟩)
          · exact ⟨hpkgS, hmem⟩
          · exact ⟨h1, fun hk => h2 (List.mem_append_left _ hk)⟩
        · rintro ⟨h1, h2⟩
          by_cases hp : k = package
          · exact .inl hp
          · refine .inr ⟨h1, ?_⟩
            intro hk
            rcases List.mem_append.mp hk with h | h
            · exact h2 h
            · exact hp (by simpa using h)
      · intro k v hv
        rcases hvals k v hv with hone | henv
        · have : k = package ∧ v = dist.version := by
            by_cases h : k = package
            · subst h
              simp [List.lookup] at hone
              exact ⟨rfl, hone.symm⟩
            · simp [List.lookup, beq_false_of_ne h] at hone
          obtain ⟨rfl, rfl⟩ := this
          exact ⟨dist, hdist, rfl⟩
        · exact henv

/-- Reachability is reflexive. -/
theorem Reaches.self {env : PkgEnv} (p : String) : Reaches env p p :=
  .refl p (List.not_mem_nil p)

/-- Reachability is transitive. -/
theorem Reaches.trans {env : PkgEnv} {p q x : String}
    (h1 : Reaches env p q) (h2 : Reaches env q x) : Reaches env p x := by
  unfold Reaches at *
  induction h1 with
  | refl _ _ => exact h2
  | step hp hd hq _ ih => exact .step hp hd hq (ih h2)

/-- Characterization of `get_installed_versions`: on a dependency-closed
database it succeeds and returns the mapping binding exactly the names
reachable from `package`, each to its installed version. -/
theorem get_installed_versions_spec (env : PkgEnv) (hclosed : DepClosed env)
    (package : String) (hins : (get_distribution env package).isSome) :
    ∃ m, get_installed_versions env package = .ok m
      ∧ (∀ k, (List.lookup k m).isSome ↔ Reaches env package k)
      ∧ (∀ k v, List.lookup k m = some v →
          ∃ d, get_distribution env k = some d ∧ d.version = v) := by
  have hfuel : unvisited env ([] : List String) < env.length + 1 := by
    have hle : unvisited env ([] : List String) ≤ env.length := by
      unfold unvisited
      calc ((env.map Prod.fst).toFinset \ ([] : List String).toFinset).card
          ≤ (env.map Prod.fst).toFinset.card :=
            Finset.card_le_card (Finset.sdiff_subset)
        _ ≤ (env.map Prod.fst).length := List.toFinset_card_le _
        _ = env.length := List.length_map _ _
    omega
  obtain ⟨m, skip', hout, hskip, hkeys, hvals⟩ :=
    givFuel_spec env hclosed (env.length + 1) [] package hfuel (.inr hins)
  refine ⟨m, ?_, ?_, hvals⟩
  · unfold get_installed_versions
    rw [hout]
  · intro k
    rw [hkeys k]
    constructor
    · rintro ⟨hk, -⟩
      rcases (hskip k).mp hk with h | h
      · exact absurd h (List.not_mem_nil k)
      · exact h
    · intro hra
      exact ⟨(hskip k).mpr (.inr hra), List.not_mem_nil k⟩

/-- Characterization of the loop of `get_requirements`. -/
theorem getRequirementsLoop_spec (env : PkgEnv) (hclosed : DepClosed env) :
    ∀ (packages : List String) (acc : List (String × String)),
      (∀ p ∈ packages, (get_distribution env p).isSome) →
      ∃ m, getRequirementsLoop env packages acc = .ok m
        ∧ (∀ k, (List.lookup k m).isSome ↔
            ((List.lookup k acc).isSome ∨ ∃ p ∈ packages, Reaches env p k))
        ∧ (∀ k v, List.lookup k m = some v →
            (List.lookup k acc = some v
              ∨ ∃ d, get_distribution env k = some d ∧ d.version = v)) := by
  intro packages
  induction packages with
  | nil =>
    intro acc _
    exact ⟨acc, rfl, by simp, fun k v h => .inl h⟩
  | cons p rest ih =>
    intro acc hp
    obtain ⟨m1, hout1, hkeys1, hvals1⟩ :=
      get_installed_versions_spec env hclosed p (hp p (by simp))
    obtain ⟨m2, hout2, hkeys2, hvals2⟩ :=
      ih (dictMerge acc m1) (fun q hq => hp q (by simp [hq]))
    refine ⟨m2, ?_, ?_, ?_⟩
    · unfold getRequirementsLoop
      rw [hout1]
      exact hout2
    · intro k
      rw [hkeys2 k, dictMerge_lookup_isSome, hkeys1 k]
      constructor
      · rintro ((h | h) | ⟨q, hq, hra⟩)
        · exact .inl h
        · exact .inr ⟨p, by simp, h⟩
        · exact .inr ⟨q, by simp [hq], hra⟩
      · rintro (h | ⟨q, hq, hra⟩)
        · exact .inl (.inl h)
        · rcases List.mem_cons.mp hq with rfl | hq'
          · exact .inl (.inr hra)
          · exact .inr ⟨q, hq', hra⟩
    · intro k v hv
      rcases hvals2 k v hv with hm | henv
      · rcases dictMerge_lookup_cases hm with h | h
        · exact .inl h
        · exact .inr (hvals1 k v h)
      · exact .inr henv

/-- Characterization of `get_requirements`: on a dependency-closed database,
given installed top-level names, it returns the mapping binding exactly the
reachable names, each to its installed version — the traversal terminates
through the visited list even on cyclic dependency graphs. -/
theorem get_requirements_spec (env : PkgEnv) (hclosed : DepClosed env)
    (packages : List String)
    (hp : ∀ p ∈ packages, (get_distribution env p).isSome) :
    ∃ m, get_requirements env packages = .ok m
      ∧ (∀ k, (List.lookup k m).isSome ↔ ∃ p ∈ packages, Reaches env p k)
      ∧ (∀ k v, List.lookup k m = some v →
          ∃ d, get_distribution env k = some d ∧ d.version = v) := by
  obtain ⟨m, hout, hkeys, hvals⟩ :=
    getRequirementsLoop_spec env hclosed packages [] hp
  refine ⟨m, hout, ?_, ?_⟩
  · intro k
    rw [hkeys k]
    simp [List.lookup]
  · intro k v hv
    rcases hvals k v hv with h | h
    · simp [List.lookup] at h
    · exact h

/-- C8: dependency resolution is idempotent.  On a dependency-closed
installation database (cycles allowed), for any list `P` of installed
package names, `get_requirements` succeeds — the visited list bounds the
recursion depth, so the fuelled recursion never reaches its recursion-limit
fallback — and resolving the package names of the computed transitive
closure yields the same name-to-version mapping as resolving `P` itself. -/
theorem getRequirements_idempotent (env : PkgEnv) (P : List String)
    (hclosed : DepClosed env)
    (hP : ∀ p ∈ P, (get_distribution env p).isSome) :
    ∃ m m2, get_requirements env P = .ok m
      ∧ get_requirements env (m.map Prod.fst) = .ok m2
      ∧ (∀ k, List.lookup k m2 = List.lookup k m) := by
  obtain ⟨m, hout, hkeys, hvals⟩ := get_requirements_spec env hclosed P hP
  have hP2 : ∀ p ∈ m.map Prod.fst, (get_distribution env p).isSome := by
    intro p hp
    obtain ⟨v, hv⟩ :=
      Option.isSome_iff_exists.mp ((lookup_isSome_iff_mem_keys m p).mpr hp)
    obtain ⟨d, hd, -⟩ := hvals p v hv
    simp [hd]
  obtain ⟨m2, hout2, hkeys2, hvals2⟩ :=
    get_requirements_spec env hclosed (m.map Prod.fst) hP2
  refine ⟨m, m2, hout, hout2, ?_⟩
  intro k
  have hiff : (List.lookup k m2).isSome ↔ (List.lookup k m).isSome := by
    rw [hkeys2 k, hkeys k]
    constructor
    · rintro ⟨q, hq, hra⟩
      obtain ⟨p, hp, hpq⟩ :=
        (hkeys q).mp ((lookup_isSome_iff_mem_keys m q).mpr hq)
      exact ⟨p, hp, hpq.trans hra⟩
    · intro h
      have hks : (List.lookup k m).isSome := (hkeys k).mpr h
      exact ⟨k, (lookup_isSome_iff_mem_keys m k).mp hks, Reaches.self k⟩
  cases hm : List.lookup k m with
  | none =>
    have h2 : ¬(List.lookup k m2).isSome = true := by
      rw [hiff, hm]
      simp
    rw [Option.not_isSome_iff_eq_none.mp h2]
  | some v =>
    have h2 : (List.lookup k m2).isSome := by
      rw [hiff, hm]
      rfl
    obtain ⟨v2, hv2⟩ := Option.isSome_iff_exists.mp h2
    obtain ⟨d2, hd2, hver2⟩ := hvals2 k v2 hv2
    obtain ⟨d, hd, hver⟩ := hvals k v hm
    rw [hd] at hd2
    injection hd2 with hdd
    rw [hv2, ← hver, ← hver2, hdd]

/-- Witness for C8: the idempotence theorem applied to the concrete cyclic
database `envCyc` and the package list `["liba"]`, hypotheses discharged by
evaluation. -/
theorem getRequirements_idempotent_witness :
    ∃ m m2, get_requirements envCyc ["liba"] = .ok m
      ∧ get_requirements envCyc (m.map Prod.fst) = .ok m2
      ∧ (∀ k, List.lookup k m2 = List.lookup k m) :=
  getRequirements_idempotent envCyc ["liba"] (by decide) (by decide)

/-- C5 counterexample: the claim says an exception other than the not-fitted
signal raised by the probe propagates to the caller unchanged.  It does not:
on a model whose probe raises `ValueError`, `serialize_sklearn` swallows the
exception and returns the serialized model successfully. -/
theorem serializeSklearn_swallow_counterexample :
    modelProbeValueErr.probe = some (.valueError "Expected 2D array, got 1D array instead")
  ∧ serialize_sklearn envSk "tensorflow" fsEmpty modelProbeValueErr none
      = .ok ⟨"sklearn", ⟨[("scikit-learn", "0.20.3")], none⟩,
          [("model.pickle", "PICKLE")]⟩ := by
  constructor
  · rfl
  · rfl

/-- C5 (amended): the trivial-input inference probe is always consulted:
if it raises the framework's not-fitted signal, serialization fails with the
dedicated `AttributeError("This model hasn't been trained yet")` (the code's
rendering of `UntrainedModelError`); any other exception raised by the probe
is caught and swallowed — serialization proceeds exactly as if the probe had
succeeded. -/
theorem serializeSklearn_probe_classification (env : PkgEnv) (backend : String)
    (fs : Fs) (est : PyEst) (isBE : Bool) (kind : SkKind)
    (probe : Option PyExc) (pickled : String) (incl : Option (List String)) :
    (∀ msg, probe = some (.notFittedError msg) →
      serialize_sklearn env backend fs ⟨est, isBE, kind, probe, pickled⟩ incl
        = .error (.attributeError "This model hasn't been trained yet"))
  ∧ (∀ e, probe = some e → isNotFittedError e = false →
      serialize_sklearn env backend fs ⟨est, isBE, kind, probe, pickled⟩ incl
        = serialize_sklearn env backend fs ⟨est, isBE, kind, none, pickled⟩ incl) := by
  constructor
  · rintro msg rfl
    simp [serialize_sklearn, fitProbe, isNotFittedError]
  · rintro e rfl hne
    simp only [serialize_sklearn, fitProbe, hne, Bool.false_eq_true, if_false]
    rfl

/-- Witness for C5's amended theorem: applied to a concrete untrained
estimator (not-fitted probe) and to the concrete swallowed-`ValueError`
model. -/
theorem serializeSklearn_probe_classification_witness :
    serialize_sklearn envSk "tensorflow" fsEmpty
      ⟨⟨"<class 'sklearn.linear_model.LogisticRegressionCV'>",
        "sklearn.linear_model", false, false, false⟩, true, .plain,
        some (.notFittedError "This LogisticRegressionCV instance is not fitted yet"),
        "PICKLE"⟩ none
      = .error (.attributeError "This model hasn't been trained yet")
  ∧ serialize_sklearn envSk "tensorflow" fsEmpty modelProbeValueErr none
      = serialize_sklearn envSk "tensorflow" fsEmpty
          ⟨modelProbeValueErr.est, true, .plain, none, "PICKLE"⟩ none :=
  ⟨(serializeSklearn_probe_classification envSk "tensorflow" fsEmpty
      ⟨"<class 'sklearn.linear_model.LogisticRegressionCV'>",
        "sklearn.linear_model", false, false, false⟩ true .plain
      (some (.notFittedError "This LogisticRegressionCV instance is not fitted yet"))
      "PICKLE" none).1
      "This LogisticRegressionCV instance is not fitted yet" rfl,
   (serializeSklearn_probe_classification envSk "tensorflow" fsEmpty
      modelProbeValueErr.est true .plain
      (some (.valueError "Expected 2D array, got 1D array instead"))
      "PICKLE" none).2
      (.valueError "Expected 2D array, got 1D array instead") rfl rfl⟩

/-! ## C1, C2, C3 theorems -/
/-- C1 (the code evaluated at the failing input): for EVERY sequence of poll
responses — in particular one that never reports a terminal flag — the poll
loop with its default budget of 30 tries performs exactly ONE status fetch
and raises `AttributeError`, not `TimeoutError` after 30 fetches: the
readiness attribute `uploaded` it tests is never assigned by
`BlazeeModel.__init__`/`_reset`. -/
theorem waitForDepoyment_attribute_crash (statuses : Nat → ModelResp) :
    wait_for_depoyment statuses 0 30
      = (.error (.attributeError "'BlazeeModel' object has no attribute 'uploaded'"), 1)
  ∧ blazeeModelAttrs.contains "uploaded" = false := by
  exact ⟨rfl, by decide⟩

/-- C3 (the code evaluated at the failing input): complete characterization
of the poll loop for every poll budget and every status sequence: with a
zero budget it raises the timeout immediately, and otherwise it raises
`AttributeError` after exactly one status fetch — it can never return
success, not even for a deployment that is ready on the first attempt, and
no inter-attempt delay ever happens (the `wait` parameter is unused). -/
theorem waitForDepoyment_never_succeeds (statuses : Nat → ModelResp)
    (fetched tries : Nat) :
    wait_for_depoyment statuses fetched tries
      = if tries = 0 then (.error (.timeoutError "Deployment timeout"), fetched)
        else (.error (.attributeError "'BlazeeModel' object has no attribute 'uploaded'"),
              fetched + 1) := by
  cases tries with
  | zero => rfl
  | succ n => rfl

/-- C2 counterexample: a brand-new model whose binary upload fails with
status 500.  `_create_model` re-raises the upload error, but the request
trace shows no `DELETE` was issued: the partially-created model is NOT
deleted, contradicting the claim. -/
theorem createModel_upload_failure_counterexample :
    create_model "sklearn" "SGDClassifier 2019-05-01T10:00:00" "BYTES"
        respM1 upD1 500 (fun _ => respM1)
      = (.error (.httpError "500 Error for upload url"),
         [⟨"POST", "/models",
            .modelCreateB "SGDClassifier 2019-05-01T10:00:00" "sklearn"⟩,
          ⟨"POST", "https://uploads.blazee.example/presigned",
            .uploadB "key=abc" "BYTES"⟩])
  ∧ ((create_model "sklearn" "SGDClassifier 2019-05-01T10:00:00" "BYTES"
        respM1 upD1 500 (fun _ => respM1)).2.filter
          (fun r => r.method == "DELETE")) = [] := by
  exact ⟨rfl, rfl⟩

/-- C2 (amended): when the binary upload for a brand-new model fails (any
4xx/5xx status), `_create_model` re-raises the upload error unchanged but
performs no compensating cleanup: the requests issued are exactly the model
creation and the failed upload — no `DELETE` is sent, so the partially
created server-side model is left in place.  (The only cleanup path in
`_create_model` is the `TimeoutError` handler of the poll loop.) -/
theorem createModel_upload_failure (type model_name model_content : String)
    (createResp : ModelResp) (uploadData : UploadData) (uploadStatus : Nat)
    (statuses : Nat → ModelResp) (h : 400 ≤ uploadStatus) :
    create_model type model_name model_content createResp uploadData
        uploadStatus statuses
      = (.error (.httpError (Nat.repr uploadStatus ++ " Error for upload url")),
         [⟨"POST", "/models", .modelCreateB model_name type⟩,
          ⟨"POST", uploadData.url, .uploadB uploadData.fields model_content⟩]) := by
  simp [create_model, raise_for_status, h]

/-- Witness for C2's amended theorem at a concrete failed upload. -/
theorem createModel_upload_failure_witness :
    create_model "sklearn" "SGDClassifier 2019-05-01T10:00:00" "BYTES"
        respM1 upD1 403 (fun _ => respM1)
      = (.error (.httpError "403 Error for upload url"),
         [⟨"POST", "/models",
            .modelCreateB "SGDClassifier 2019-05-01T10:00:00" "sklearn"⟩,
          ⟨"POST", "https://uploads.blazee.example/presigned",
            .uploadB "key=abc" "BYTES"⟩]) :=
  createModel_upload_failure "sklearn" "SGDClassifier 2019-05-01T10:00:00"
    "BYTES" respM1 upD1 403 (fun _ => respM1) (by decide)

/-! ## C6 and C10 theorems -/
/-- C6: `delete()` on a live handle succeeds and sets the local terminal
flag; on a handle whose flag is set, every public operation — rename,
versions, get_version, delete, update, predict, predict_batch — fails with
the local `AssertionError("Model is deleted. Cannot perform operation")`
before issuing any remote request, leaving the state (flag included)
unchanged; hence no operation ever clears the flag. -/
theorem handle_deleted_guard (s : HandleState) (n q data skv vid : String)
    (rr rfr : ModelResp) (vr : List VersionResp) (model : SkModel)
    (dflt : Bool) (cv dr : VersionResp) (ud : UploadData) (ust : Nat)
    (pr : String) (prs : List String) :
    (s.deletedF = false →
      (delete s).1 = .ok () ∧ ((delete s).2.1).deletedF = true)
  ∧ (s.deletedF = true →
      rename s n rr
        = (.error (.assertionError "Model is deleted. Cannot perform operation"), s, [])
      ∧ versions s vr
        = (.error (.assertionError "Model is deleted. Cannot perform operation"), s, [])
      ∧ get_version s q vr
        = (.error (.assertionError "Model is deleted. Cannot perform operation"), s, [])
      ∧ delete s
        = (.error (.assertionError "Model is deleted. Cannot perform operation"), s, [])
      ∧ update s model dflt skv cv ud ust dr rfr
        = (.error (.assertionError "Model is deleted. Cannot perform operation"), s, [])
      ∧ predict s data pr
        = (.error (.assertionError "Model is deleted. Cannot perform operation"), s, [])
      ∧ predict_batch s data prs
        = (.error (.assertionError "Model is deleted. Cannot perform operation"), s, [])) := by
  constructor
  · intro hd
    simp [delete, check_deleted, hd]
  · intro hd
    refine ⟨?_, ?_, ?_, ?_, ?_, ?_, ?_⟩ <;>
      simp [rename, versions, get_version, delete, update, predict,
        predict_batch, check_deleted, hd]

/-- Witness for C6: the guard theorem applied at a concrete live handle and
at that handle after deletion. -/
theorem handle_deleted_guard_witness :
    (delete ⟨false, "mid", "m", none, "t0", "t1"⟩).1 = .ok ()
  ∧ ((delete ⟨false, "mid", "m", none, "t0", "t1"⟩).2.1).deletedF = true
  ∧ rename ⟨true, "mid", "m", none, "t0", "t1"⟩ "new"
        ⟨"mid", "new", none, "t0", "t2"⟩
      = (.error (.assertionError "Model is deleted. Cannot perform operation"),
         ⟨true, "mid", "m", none, "t0", "t1"⟩, []) := by
  refine ⟨?_, ?_, ?_⟩
  · exact ((handle_deleted_guard ⟨false, "mid", "m", none, "t0", "t1"⟩
      "n" "q" "d" "v" "i" ⟨"mid", "m", none, "t0", "t1"⟩
      ⟨"mid", "m", none, "t0", "t1"⟩ [] modelProbeValueErr false
      ⟨"v1", "v1", "sklearn", "", false, "t0", "t1"⟩
      ⟨"v1", "v1", "sklearn", "", false, "t0", "t1"⟩ ⟨"u", "f"⟩ 200 "p" []).1
      rfl).1
  · exact ((handle_deleted_guard ⟨false, "mid", "m", none, "t0", "t1"⟩
      "n" "q" "d" "v" "i" ⟨"mid", "m", none, "t0", "t1"⟩
      ⟨"mid", "m", none, "t0", "t1"⟩ [] modelProbeValueErr false
      ⟨"v1", "v1", "sklearn", "", false, "t0", "t1"⟩
      ⟨"v1", "v1", "sklearn", "", false, "t0", "t1"⟩ ⟨"u", "f"⟩ 200 "p" []).1
      rfl).2
  · exact ((handle_deleted_guard ⟨true, "mid", "m", none, "t0", "t1"⟩
      "new" "q" "d" "v" "i" ⟨"mid", "new", none, "t0", "t2"⟩
      ⟨"mid", "m", none, "t0", "t1"⟩ [] modelProbeValueErr false
      ⟨"v1", "v1", "sklearn", "", false, "t0", "t1"⟩
      ⟨"v1", "v1", "sklearn", "", false, "t0", "t1"⟩ ⟨"u", "f"⟩ 200 "p" []).2
      rfl).1

/-- C10: for every call to `update`, whatever the value of the `default`
argument (the call with `default=True` is literally identical to the call
with `default=False`), the issued requests never include a body carrying
`default_version_id` — the server-side default-version reference is left
unchanged; among all handle operations only `make_default` issues that
request. -/
theorem update_never_sets_default_version (s : HandleState) (model : SkModel)
    (dflt : Bool) (skv : String) (cv dr : VersionResp) (ud : UploadData)
    (ust : Nat) (rfr rr : ModelResp) (n q data vid : String)
    (vr : List VersionResp) (pr : String) (prs : List String) :
    ((update s model dflt skv cv ud ust dr rfr).2.2.filter
        (fun r => setsDefaultVersion r.body) = [])
  ∧ (update s model true skv cv ud ust dr rfr
      = update s model false skv cv ud ust dr rfr)
  ∧ ((make_default s vid rfr).2.2.filter
        (fun r => setsDefaultVersion r.body)
      = [⟨"PATCH", "/models/" ++ s.id, .defaultVersionIdB vid⟩])
  ∧ ((rename s n rr).2.2.filter (fun r => setsDefaultVersion r.body) = [])
  ∧ ((versions s vr).2.2.filter (fun r => setsDefaultVersion r.body) = [])
  ∧ ((get_version s q vr).2.2.filter (fun r => setsDefaultVersion r.body) = [])
  ∧ ((delete s).2.2.filter (fun r => setsDefaultVersion r.body) = [])
  ∧ ((predict s data pr).2.2.filter (fun r => setsDefaultVersion r.body) = [])
  ∧ ((predict_batch s data prs).2.2.filter
        (fun r => setsDefaultVersion r.body) = []) := by
  refine ⟨?_, rfl, rfl, ?_, ?_, ?_, ?_, ?_, ?_⟩
  · cases hd : s.deletedF
    · simp only [update, check_deleted, hd, Bool.false_eq_true, if_false]
      cases hs : model_serialize_model model with
      | error e => simp
      | ok tc =>
        obtain ⟨t, c⟩ := tc
        cases hm : model_get_model_metadata skv model with
        | error e => simp
        | ok md =>
          simp only [upload_version]
          cases hr : raise_for_status ust with
          | error e => simp [setsDefaultVersion]
          | ok u => simp [setsDefaultVersion]
    · simp [update, check_deleted, hd]
  all_goals cases hd : s.deletedF
  all_goals simp [rename, versions, get_version, delete, predict,
    predict_batch, check_deleted, setsDefaultVersion, hd]
  all_goals
    cases hf : List.find? (fun v => q == v.id || q == v.name) vr <;>
      simp [hf]

/-! ## C9 theorems -/
/-- Every exit path of `serialize_keras` carries exactly the temp-file trace
of its `try/finally` block. -/
theorem serialize_keras_trace (env : PkgEnv) (backend : String) (fs : Fs)
    (tfs : TmpFs) (incl : Option (List String)) :
    (serialize_keras env backend fs tfs incl).2 = (tmpExport tfs "tmp.h5").2 := by
  unfold serialize_keras
  cases hte : tmpExport tfs "tmp.h5" with
  | mk r trace =>
    cases r with
    | error e => simp [hte]
    | ok w => cases hm : keras_get_model_metadata env backend incl <;> simp [hte, hm]

/-- Every exit path of `serialize_xgboost` carries exactly the temp-file
trace of its `try/finally` block. -/
theorem serialize_xgboost_trace (env : PkgEnv) (fs : Fs) (tfs : TmpFs)
    (incl : Option (List String)) :
    (serialize_xgboost env fs tfs incl).2 = (tmpExport tfs "tmp.txt").2 := by
  unfold serialize_xgboost
  cases hte : tmpExport tfs "tmp.txt" with
  | mk r trace =>
    cases r with
    | error e => simp [hte]
    | ok w => cases hm : xgboost_get_model_metadata env incl <;> simp [hte, hm]

/-- Every exit path of `serialize_lightgbm` carries exactly the temp-file
trace of its `try/finally` block. -/
theorem serialize_lightgbm_trace (env : PkgEnv) (fs : Fs) (tfs : TmpFs)
    (incl : Option (List String)) :
    (serialize_lightgbm env fs tfs incl).2 = (tmpExport tfs "tmp.txt").2 := by
  unfold serialize_lightgbm
  cases hte : tmpExport tfs "tmp.txt" with
  | mk r trace =>
    cases r with
    | error e => simp [hte]
    | ok w => cases hm : lightgbm_get_model_metadata env incl <;> simp [hte, hm]

/-- The `finally` trace always contains the removal attempt, and the actual
removal whenever the file system permits it. -/
theorem tmpExport_removes (tfs : TmpFs) (t : String) :
    FsOp.removeAttempt t ∈ (tmpExport tfs t).2
  ∧ (tfs.removeResult = none → FsOp.removed t ∈ (tmpExport tfs t).2) := by
  obtain ⟨sv, rd, rm⟩ := tfs
  constructor
  · cases sv <;> cases rd <;> cases rm <;> simp [tmpExport, finallyRemove]
  · intro h
    simp only at h
    subst h
    cases sv <;> cases rd <;> simp [tmpExport, finallyRemove]

/-- C9 counterexample: the temporary location is NOT uniquely named.  It is
the fixed relative path `tmp.h5` (keras) / `tmp.txt` (xgboost and lightgbm)
on every call: two distinct keras invocations (one succeeding, one failing
at save time) write the same path, and the xgboost and lightgbm adapters
even share one path with each other. -/
theorem serializeTemp_fixed_name_counterexample :
    (serialize_keras [] "tensorflow" fsEmpty tfsOK none).2.head?
      = some (.save "tmp.h5")
  ∧ (serialize_keras [] "tensorflow" fsEmpty tfsSaveFail none).2.head?
      = some (.save "tmp.h5")
  ∧ (serialize_xgboost [] fsEmpty tfsOK none).2.head?
      = some (.save "tmp.txt")
  ∧ (serialize_lightgbm [] fsEmpty tfsOK none).2.head?
      = some (.save "tmp.txt") :=
  ⟨rfl, rfl, rfl, rfl⟩

/-- C9 (amended): each on-disk-export adapter writes its export to a FIXED
relative path (`tmp.h5` for keras, `tmp.txt` for xgboost and lightgbm), not
a uniquely named location; the `finally` block attempts `os.remove` of that
path on every exit path — success, export failure, read failure, metadata
failure — and the file is actually removed whenever the file system permits
(an `OSError` from the removal itself is swallowed). -/
theorem serializeTemp_cleanup (env : PkgEnv) (backend : String) (fs : Fs)
    (tfs : TmpFs) (incl : Option (List String)) :
    (FsOp.removeAttempt "tmp.h5" ∈ (serialize_keras env backend fs tfs incl).2
      ∧ (tfs.removeResult = none →
          FsOp.removed "tmp.h5" ∈ (serialize_keras env backend fs tfs incl).2))
  ∧ (FsOp.removeAttempt "tmp.txt" ∈ (serialize_xgboost env fs tfs incl).2
      ∧ (tfs.removeResult = none →
          FsOp.removed "tmp.txt" ∈ (serialize_xgboost env fs tfs incl).2))
  ∧ (FsOp.removeAttempt "tmp.txt" ∈ (serialize_lightgbm env fs tfs incl).2
      ∧ (tfs.removeResult = none →
          FsOp.removed "tmp.txt" ∈ (serialize_lightgbm env fs tfs incl).2)) := by
  refine ⟨⟨?_, ?_⟩, ⟨?_, ?_⟩, ⟨?_, ?_⟩⟩
  · rw [serialize_keras_trace]
    exact (tmpExport_removes tfs "tmp.h5").1
  · intro h
    rw [serialize_keras_trace]
    exact (tmpExport_removes tfs "tmp.h5").2 h
  · rw [serialize_xgboost_trace]
    exact (tmpExport_removes tfs "tmp.txt").1
  · intro h
    rw [serialize_xgboost_trace]
    exact (tmpExport_removes tfs "tmp.txt").2 h
  · rw [serialize_lightgbm_trace]
    exact (tmpExport_removes tfs "tmp.txt").1
  · intro h
    rw [serialize_lightgbm_trace]
    exact (tmpExport_removes tfs "tmp.txt").2 h

/-- Witness for C9's amended theorem: cleanup observed on a concrete
successful export and on a concrete save-time disk error. -/
theorem serializeTemp_cleanup_witness :
    FsOp.removed "tmp.h5" ∈ (serialize_keras [] "tensorflow" fsEmpty tfsOK none).2
  ∧ FsOp.removeAttempt "tmp.txt" ∈ (serialize_xgboost [] fsEmpty tfsSaveFail none).2 :=
  ⟨((serializeTemp_cleanup [] "tensorflow" fsEmpty tfsOK none).1).2 rfl,
   ((serializeTemp_cleanup [] "tensorflow" fsEmpty tfsSaveFail none).2.1).1⟩

end Blazee
